import Mathlib

/-!
# Verification of the ConverterX conversion-routing core

Shallow embedding of the conversion-routing core of the ConverterX
repository: the format tables of `config.py`, the compatibility check and
naming utilities of `utils.py`, the handler registry and the `convert`
entry point of `converter_core.py` (class `DocumentConverter`), the image
policy branches of `_image_convert`, the SVG fallback chain, and the batch
orchestrator `batch_convert` of `cli_converter.py`.

External effects (library calls, file I/O, the interactive prompt) are
represented by explicit parameters: a handler's outcome is an oracle
returning `Except String Bool` (a Python exception or a returned boolean),
the prompt answer is a string argument, and per-file conversion success in
a batch is a boolean oracle on the file path.
-/

namespace ConverterX

/-- `config.SUPPORTED_FORMATS`: each format name with its ordered list of
recognized extensions (first is canonical). Order is Python dict insertion
order. -/
def SUPPORTED_FORMATS : List (String × List String) :=
  [ ("docx", [".docx"]),
    ("pdf", [".pdf"]),
    ("txt", [".txt"]),
    ("rtf", [".rtf"]),
    ("html", [".html", ".htm"]),
    ("odt", [".odt"]),
    ("xlsx", [".xlsx"]),
    ("csv", [".csv"]),
    ("md", [".md"]),
    ("png", [".png"]),
    ("jpg", [".jpg", ".jpeg"]),
    ("gif", [".gif"]),
    ("bmp", [".bmp"]),
    ("tiff", [".tiff", ".tif"]),
    ("webp", [".webp"]),
    ("ico", [".ico"]),
    ("svg", [".svg"]),
    ("mp4", [".mp4"]),
    ("avi", [".avi"]),
    ("mov", [".mov"]),
    ("wmv", [".wmv"]),
    ("flv", [".flv"]),
    ("mkv", [".mkv"]),
    ("webm", [".webm"]),
    ("m4v", [".m4v"]),
    ("3gp", [".3gp"]),
    ("mp3", [".mp3"]),
    ("wav", [".wav"]),
    ("aac", [".aac"]),
    ("flac", [".flac"]),
    ("ogg", [".ogg"]),
    ("m4a", [".m4a"]),
    ("wma", [".wma"]) ]

/-- `config.CONVERSION_MATRIX`: which source format converts to which
target formats. -/
def CONVERSION_MATRIX : List (String × List String) :=
  [ ("docx", ["pdf", "txt", "html", "rtf"]),
    ("pdf", ["txt", "docx", "html"]),
    ("txt", ["docx", "pdf", "html", "rtf"]),
    ("html", ["docx", "pdf", "txt"]),
    ("rtf", ["docx", "pdf", "txt"]),
    ("md", ["html", "pdf", "docx"]),
    ("xlsx", ["csv", "pdf"]),
    ("csv", ["xlsx", "pdf"]),
    ("png", ["jpg", "pdf", "gif", "bmp", "tiff", "webp", "ico"]),
    ("jpg", ["png", "pdf", "gif", "bmp", "tiff", "webp"]),
    ("gif", ["png", "jpg", "pdf", "bmp", "tiff", "webp"]),
    ("bmp", ["png", "jpg", "pdf", "gif", "tiff", "webp"]),
    ("tiff", ["png", "jpg", "pdf", "gif", "bmp", "webp"]),
    ("webp", ["png", "jpg", "pdf", "gif", "bmp", "tiff"]),
    ("ico", ["png", "jpg", "pdf", "gif", "bmp"]),
    ("svg", ["png", "jpg", "pdf"]),
    ("mp4", ["avi", "mov", "wmv", "flv", "mkv", "webm", "m4v", "3gp", "mp3", "wav", "aac", "gif"]),
    ("avi", ["mp4", "mov", "wmv", "flv", "mkv", "webm", "m4v", "3gp", "mp3", "wav", "aac", "gif"]),
    ("mov", ["mp4", "avi", "wmv", "flv", "mkv", "webm", "m4v", "3gp", "mp3", "wav", "aac", "gif"]),
    ("wmv", ["mp4", "avi", "mov", "flv", "mkv", "webm", "m4v", "3gp", "mp3", "wav", "aac", "gif"]),
    ("flv", ["mp4", "avi", "mov", "wmv", "mkv", "webm", "m4v", "3gp", "mp3", "wav", "aac", "gif"]),
    ("mkv", ["mp4", "avi", "mov", "wmv", "flv", "webm", "m4v", "3gp", "mp3", "wav", "aac", "gif"]),
    ("webm", ["mp4", "avi", "mov", "wmv", "flv", "mkv", "m4v", "3gp", "mp3", "wav", "aac", "gif"]),
    ("m4v", ["mp4", "avi", "mov", "wmv", "flv", "mkv", "webm", "3gp", "mp3", "wav", "aac", "gif"]),
    ("3gp", ["mp4", "avi", "mov", "wmv", "flv", "mkv", "webm", "m4v", "mp3", "wav", "aac", "gif"]),
    ("mp3", ["wav", "aac", "flac", "ogg", "m4a", "wma"]),
    ("wav", ["mp3", "aac", "flac", "ogg", "m4a", "wma"]),
    ("aac", ["mp3", "wav", "flac", "ogg", "m4a", "wma"]),
    ("flac", ["mp3", "wav", "aac", "ogg", "m4a", "wma"]),
    ("ogg", ["mp3", "wav", "aac", "flac", "m4a", "wma"]),
    ("m4a", ["mp3", "wav", "aac", "flac", "ogg", "wma"]),
    ("wma", ["mp3", "wav", "aac", "flac", "ogg", "m4a"]) ]

/-- `config.MAX_BATCH_SIZE`. -/
def MAX_BATCH_SIZE : Nat := 50

/-- `utils.can_convert`: `source in CONVERSION_MATRIX and
target in CONVERSION_MATRIX[source]`. -/
def can_convert (source_format target_format : String) : Bool :=
  match CONVERSION_MATRIX.lookup source_format with
  | some targets => targets.contains target_format
  | none => false

/-- The conversion handler methods of `DocumentConverter` that entries of
`supported_conversions` point at. -/
inductive Handler
  | docxToPdf | docxToTxt | docxToHtml
  | pdfToTxt | pdfToDocx
  | txtToPdf | txtToDocx
  | htmlToPdf | htmlToTxt
  | mdToHtml
  | xlsxToCsv | csvToXlsx
  | imageConvert | imageToPdf
  | svgToRaster | svgToPdf
  | videoToVideo | videoToAudio | videoToGif
  | audioToAudio
  deriving DecidableEq, Repr

/-- The explicit dict literal assigned to `self.supported_conversions` in
`DocumentConverter.__init__`, in source order. -/
def explicitConversions : List ((String × String) × Handler) :=
  [ (("docx", "pdf"), .docxToPdf),
    (("docx", "txt"), .docxToTxt),
    (("docx", "html"), .docxToHtml),
    (("pdf", "txt"), .pdfToTxt),
    (("pdf", "docx"), .pdfToDocx),
    (("txt", "pdf"), .txtToPdf),
    (("txt", "docx"), .txtToDocx),
    (("html", "pdf"), .htmlToPdf),
    (("html", "txt"), .htmlToTxt),
    (("md", "html"), .mdToHtml),
    (("xlsx", "csv"), .xlsxToCsv),
    (("csv", "xlsx"), .csvToXlsx),
    (("png", "jpg"), .imageConvert),
    (("png", "gif"), .imageConvert),
    (("png", "bmp"), .imageConvert),
    (("png", "tiff"), .imageConvert),
    (("png", "webp"), .imageConvert),
    (("png", "ico"), .imageConvert),
    (("png", "pdf"), .imageToPdf),
    (("jpg", "png"), .imageConvert),
    (("jpg", "gif"), .imageConvert),
    (("jpg", "bmp"), .imageConvert),
    (("jpg", "tiff"), .imageConvert),
    (("jpg", "webp"), .imageConvert),
    (("jpg", "pdf"), .imageToPdf),
    (("gif", "png"), .imageConvert),
    (("gif", "jpg"), .imageConvert),
    (("gif", "bmp"), .imageConvert),
    (("gif", "tiff"), .imageConvert),
    (("gif", "webp"), .imageConvert),
    (("gif", "pdf"), .imageToPdf),
    (("bmp", "png"), .imageConvert),
    (("bmp", "jpg"), .imageConvert),
    (("bmp", "gif"), .imageConvert),
    (("bmp", "tiff"), .imageConvert),
    (("bmp", "webp"), .imageConvert),
    (("bmp", "pdf"), .imageToPdf),
    (("tiff", "png"), .imageConvert),
    (("tiff", "jpg"), .imageConvert),
    (("tiff", "gif"), .imageConvert),
    (("tiff", "bmp"), .imageConvert),
    (("tiff", "webp"), .imageConvert),
    (("tiff", "pdf"), .imageToPdf),
    (("webp", "png"), .imageConvert),
    (("webp", "jpg"), .imageConvert),
    (("webp", "gif"), .imageConvert),
    (("webp", "bmp"), .imageConvert),
    (("webp", "tiff"), .imageConvert),
    (("webp", "pdf"), .imageToPdf),
    (("ico", "png"), .imageConvert),
    (("ico", "jpg"), .imageConvert),
    (("ico", "gif"), .imageConvert),
    (("ico", "bmp"), .imageConvert),
    (("ico", "pdf"), .imageToPdf),
    (("svg", "png"), .svgToRaster),
    (("svg", "jpg"), .svgToRaster),
    (("svg", "pdf"), .svgToPdf) ]

/-- The `video_formats` list of `_add_video_audio_conversions`. -/
def video_formats : List String :=
  ["mp4", "avi", "mov", "wmv", "flv", "mkv", "webm", "m4v", "3gp"]

/-- The `audio_formats` list of `_add_video_audio_conversions`. -/
def audio_formats : List String :=
  ["mp3", "wav", "aac", "flac", "ogg", "m4a", "wma"]

/-- Python dict assignment `d[k] = v` on an association list: overwrite in
place if the key exists, else append. -/
def dictInsert (d : List ((String × String) × Handler))
    (k : String × String) (v : Handler) : List ((String × String) × Handler) :=
  if d.any (fun p => p.1 == k) then
    d.map (fun p => if p.1 == k then (k, v) else p)
  else
    d ++ [(k, v)]

/-- `DocumentConverter._add_video_audio_conversions`: the programmatic
expansion of the video/audio conversion families. -/
def addVideoAudioConversions (d : List ((String × String) × Handler)) :
    List ((String × String) × Handler) :=
  let d := video_formats.foldl (fun d source =>
    video_formats.foldl (fun d target =>
      if source ≠ target then dictInsert d (source, target) .videoToVideo else d) d) d
  let d := video_formats.foldl (fun d source =>
    audio_formats.foldl (fun d target =>
      dictInsert d (source, target) .videoToAudio) d) d
  let d := video_formats.foldl (fun d source =>
    dictInsert d (source, "gif") .videoToGif) d
  audio_formats.foldl (fun d source =>
    audio_formats.foldl (fun d target =>
      if source ≠ target then dictInsert d (source, target) .audioToAudio else d) d) d

/-- `self.supported_conversions` after `__init__` has run. -/
def supported_conversions : List ((String × String) × Handler) :=
  addVideoAudioConversions explicitConversions

/-- Handler lookup for a (source, target) pair: `handlerFor` of the spec. -/
def handlerFor (source target : String) : Option Handler :=
  supported_conversions.lookup (source, target)

/-! ## Path and naming utilities (`utils.py`)

POSIX path semantics of `pathlib.Path`: the name is the last non-empty
`/`-separated component; the suffix is the part of the name from its last
dot, provided that dot is neither the first nor the last character. -/

/-- Split a character list at every occurrence of a separator. -/
def splitOnChar (sep : Char) : List Char → List (List Char)
  | [] => [[]]
  | c :: cs =>
    match splitOnChar sep cs with
    | [] => if c == sep then [[], [c]] else [[c]]
    | h :: t => if c == sep then [] :: h :: t else (c :: h) :: t

/-- ASCII lowering of a string (`str.lower()` on the ASCII names and
extensions this program compares). -/
def lowerAscii (s : String) : String :=
  String.mk (s.toList.map Char.toLower)

/-- Final path component (`pathlib.Path(p).name`). -/
def pathName (p : String) : String :=
  String.mk (((splitOnChar '/' p.toList).filter (fun c => !c.isEmpty)).getLastD [])

/-- File suffix including the dot (`pathlib.Path(p).suffix`). -/
def fileSuffix (p : String) : String :=
  let cs := (pathName p).toList
  match cs.reverse.findIdx? (fun c => c == '.') with
  | none => ""
  | some j =>
    let i := cs.length - 1 - j
    if 0 < i ∧ i < cs.length - 1 then String.mk (cs.drop i) else ""

/-- File name without its suffix (`pathlib.Path(p).stem`). -/
def fileStem (p : String) : String :=
  let name := pathName p
  let suf := fileSuffix p
  if suf.isEmpty then name else String.mk (name.toList.take (name.length - suf.length))

/-- `utils.get_file_extension`: `Path(file_path).suffix.lower()`. -/
def get_file_extension (file_path : String) : String :=
  lowerAscii (fileSuffix file_path)

/-- `utils.get_file_format`: first format whose extension list contains the
file's lowered extension, scanning `SUPPORTED_FORMATS` in insertion order. -/
def get_file_format (file_path : String) : Option String :=
  let ext := get_file_extension file_path
  SUPPORTED_FORMATS.findSome? (fun f => if f.2.contains ext then some f.1 else none)

/-- `utils.is_supported_format`. -/
def is_supported_format (file_path : String) : Bool :=
  (get_file_format file_path).isSome

/-- `os.path.join` for one directory and one relative-or-absolute name
(POSIX semantics). -/
def osJoin (dir name : String) : String :=
  if name.startsWith "/" then name
  else if dir.isEmpty then name
  else if dir.endsWith "/" then dir ++ name
  else dir ++ "/" ++ name

/-- `utils.generate_output_filename`: joins the output directory with the
input's stem plus the first extension of the target format.
`config.SUPPORTED_FORMATS[target_format][0]` raises `KeyError`/`IndexError`
when the target is unknown or has no extensions; both are modelled as
`none`. -/
def generate_output_filename (input_file target_format output_dir : String) :
    Option String :=
  match SUPPORTED_FORMATS.lookup target_format with
  | none => none
  | some [] => none
  | some (e :: _) => some (osJoin output_dir (fileStem input_file ++ e))

/-! ## The `convert` entry point (`DocumentConverter.convert`)

A handler's execution is external behaviour: it is abstracted by an oracle
returning `Except String Bool` — `.error` models a raised Python exception,
`.ok b` a returned boolean. `convert` returns the boolean result paired
with the number of handler invocations performed, mirroring the
call-count instrumentation the spec asks for. The `try/except` wrapping
the body catches a raised exception and returns `False`. -/

/-- `DocumentConverter.convert`. -/
def convert (handlerRun : Handler → String → String → Except String Bool)
    (input_file output_file source_format target_format : String) : Bool × Nat :=
  match supported_conversions.lookup (source_format, target_format) with
  | none => (false, 0)
  | some h =>
    match handlerRun h input_file output_file with
    | .ok b => (b, 1)
    | .error _ => (false, 1)

/-! ## Batch orchestrator (`cli_converter.batch_convert`)

Directory traversal is abstracted by the list of discovered file paths in
`os.walk` order; the interactive `input()` answer is the `promptResponse`
argument; per-file success of `converter.convert` is the `convertOk`
oracle on the file path. -/

/-- How a batch run ended: no convertible files found, aborted at the
over-cap prompt, or the per-file loop ran to completion. -/
inductive BatchOutcome
  | noFiles
  | aborted
  | completed
  deriving DecidableEq, Repr

/-- Observable outcome of one `batch_convert` call: files attempted in
order, counts, whether the over-cap warning was logged, how the run ended,
and the returned boolean. -/
structure BatchResult where
  attempted : List String
  successful : Nat
  failed : Nat
  truncWarned : Bool
  outcome : BatchOutcome
  retVal : Bool
  deriving DecidableEq, Repr

/-- One iteration of the conversion loop: increment the success or the
failure counter. -/
def convertStep (convertOk : String → Bool) (acc : Nat × Nat) (f : String) : Nat × Nat :=
  if convertOk f then (acc.1 + 1, acc.2) else (acc.1, acc.2 + 1)

/-- The per-file loop of `batch_convert`, returning (successful, failed). -/
def convertLoop (files : List String) (convertOk : String → Bool) : Nat × Nat :=
  files.foldl (convertStep convertOk) (0, 0)

/-- The discovery filter of `batch_convert`: keep files whose format is
recognized and convertible to the target, in traversal order. -/
def batch_supported_files (files : List String) (target_format : String) : List String :=
  files.filter (fun f =>
    match get_file_format f with
    | some s => can_convert s target_format
    | none => false)

/-- `cli_converter.batch_convert`. -/
def batch_convert (files : List String) (target_format : String)
    (promptResponse : String) (convertOk : String → Bool) : BatchResult :=
  if batch_supported_files files target_format = [] then
    ⟨[], 0, 0, false, .noFiles, false⟩
  else if MAX_BATCH_SIZE < (batch_supported_files files target_format).length then
    if lowerAscii promptResponse ≠ "y" then
      ⟨[], 0, 0, true, .aborted, false⟩
    else
      ⟨(batch_supported_files files target_format).take MAX_BATCH_SIZE,
       (convertLoop ((batch_supported_files files target_format).take MAX_BATCH_SIZE)
         convertOk).1,
       (convertLoop ((batch_supported_files files target_format).take MAX_BATCH_SIZE)
         convertOk).2,
       true, .completed,
       (convertLoop ((batch_supported_files files target_format).take MAX_BATCH_SIZE)
         convertOk).2 == 0⟩
  else
    ⟨batch_supported_files files target_format,
     (convertLoop (batch_supported_files files target_format) convertOk).1,
     (convertLoop (batch_supported_files files target_format) convertOk).2,
     false, .completed,
     (convertLoop (batch_supported_files files target_format) convertOk).2 == 0⟩

/-! ## Raster image policy (`DocumentConverter._image_convert`)

An image is its PIL mode, its dimensions, and a pixel map. Pixels are
always carried as RGBA quadruples; for `L`/`LA` images the three colour
components hold the (equal) luminance value, and for `P` images the
pixel map holds the palette-resolved RGBA values, so that PIL's mode
conversions are maps on the tag and the pixel function. PIL semantics
modelled here: `paste` without a mask converts the pasted image to the
background's mode (dropping alpha) and overwrites every pixel; `paste`
with an `L`-mode mask blends `bg*(255-a)/255 + src*a/255`. -/

/-- PIL image modes distinguished by `_image_convert`. -/
inductive PMode
  | RGBA | LA | P | RGB | L | other
  deriving DecidableEq, Repr

/-- An RGBA pixel value. -/
abbrev Pixel := Nat × Nat × Nat × Nat

/-- A PIL image: mode tag, dimensions, pixel map. -/
structure PImage where
  mode : PMode
  width : Nat
  height : Nat
  px : Nat → Nat → Pixel

/-- Alpha component of a pixel. -/
def alphaOf (img : PImage) (x y : Nat) : Nat :=
  (img.px x y).2.2.2

/-- `img.convert('RGB')`: drop alpha. -/
def convertToRGB (img : PImage) : PImage :=
  ⟨.RGB, img.width, img.height, fun x y =>
    let p := img.px x y
    (p.1, p.2.1, p.2.2.1, 255)⟩

/-- `img.convert('RGBA')` on a palette image: the palette resolution is
already carried by the pixel map, so only the tag changes. -/
def pToRGBA (img : PImage) : PImage :=
  ⟨.RGBA, img.width, img.height, img.px⟩

/-- `background.paste(img)` with no mask: PIL converts the pasted image to
the background's mode, discarding alpha, and overwrites every pixel. -/
def pasteNoMask (bg src : PImage) : PImage :=
  ⟨bg.mode, bg.width, bg.height, fun x y =>
    let p := src.px x y
    (p.1, p.2.1, p.2.2.1, 255)⟩

/-- `background.paste(img, mask=alpha)`: per-pixel blend by the mask. -/
def pasteWithAlphaMask (bg src : PImage) : PImage :=
  ⟨bg.mode, bg.width, bg.height, fun x y =>
    let b := bg.px x y
    let s := src.px x y
    let a := s.2.2.2
    ((b.1 * (255 - a) + s.1 * a) / 255,
     (b.2.1 * (255 - a) + s.2.1 * a) / 255,
     (b.2.2.1 * (255 - a) + s.2.2.1 * a) / 255, 255)⟩

/-- `Image.new('RGB', size, (255, 255, 255))`. -/
def whiteBackground (w h : Nat) : PImage :=
  ⟨.RGB, w, h, fun _ _ => (255, 255, 255, 255)⟩

/-- The `.jpg`/`.jpeg` branch of `_image_convert`: the image handed to the
JPEG encoder. For `RGBA`/`LA`/`P` modes a white background is created, a
`P` image is first converted to `RGBA`, and the image is pasted onto the
background with `mask=img.split()[-1]` if its mode is `RGBA` and with no
mask otherwise; other modes are converted to `RGB` directly. -/
def jpegBranch (img : PImage) : PImage :=
  if img.mode = .RGBA ∨ img.mode = .LA ∨ img.mode = .P then
    let background := whiteBackground img.width img.height
    let img1 := if img.mode = .P then pToRGBA img else img
    if img1.mode = .RGBA then
      pasteWithAlphaMask background img1
    else
      pasteNoMask background img1
  else
    convertToRGB img

/-- `img.resize(size, LANCZOS)`: resampling abstracted, dimensions change. -/
def resizeImg (img : PImage) (w h : Nat) : PImage :=
  ⟨img.mode, w, h, img.px⟩

/-- `img.convert('RGBA')` in the ICO branch. -/
def toRGBAmode (img : PImage) : PImage :=
  ⟨.RGBA, img.width, img.height, img.px⟩

/-- The fixed candidate square sizes of the ICO branch. -/
def icoCandidateSizes : List (Nat × Nat) :=
  [(16, 16), (32, 32), (48, 48), (64, 64), (128, 128), (256, 256)]

/-- What the ICO branch hands to the encoder: either a multi-size save
with an explicit sizes list, or a plain single save at the image's size. -/
inductive IcoSave
  | multi (sizes : List (Nat × Nat))
  | single (w h : Nat)
  deriving DecidableEq, Repr

/-- First step of the `.ico` branch: downscale to 256×256 when either
dimension exceeds 256. -/
def icoResized (img : PImage) : PImage :=
  if 256 < img.width ∨ 256 < img.height then resizeImg img 256 256 else img

/-- Second step of the `.ico` branch: convert to `RGBA` unless already. -/
def icoRGBA (img : PImage) : PImage :=
  if img.mode ≠ PMode.RGBA then toRGBAmode img else img

/-- The `.ico` branch of `_image_convert`: downscale to 256×256 if either
dimension exceeds 256, convert to `RGBA`, collect the candidate sizes that
fit the (possibly downscaled) image, and save multi-size if any fit, else
save the image as-is. -/
def icoBranch (img : PImage) : IcoSave :=
  if (icoCandidateSizes.filter
      (fun s => s.1 ≤ (icoRGBA (icoResized img)).width &&
        s.2 ≤ (icoRGBA (icoResized img)).height)).isEmpty then
    IcoSave.single (icoRGBA (icoResized img)).width (icoRGBA (icoResized img)).height
  else
    IcoSave.multi (icoCandidateSizes.filter
      (fun s => s.1 ≤ (icoRGBA (icoResized img)).width &&
        s.2 ≤ (icoRGBA (icoResized img)).height))

/-! ## SVG fallback chain (`_svg_to_raster`, `_svg_to_raster_fallback`)

Library availability is a boolean per optional dependency (`cairosvg`,
`wand`); the outcome of an available renderer is a boolean oracle (an
exception inside it is caught by the enclosing `except` and yields
failure or the next fallback, as in the source). -/

/-- A placeholder image written by the terminal fallback: dimensions,
fill colour, and the save format (explicit `JPEG` or inferred from the
output extension). -/
structure PlaceholderWrite where
  width : Nat
  height : Nat
  color : Nat × Nat × Nat
  savedAs : String
  deriving DecidableEq, Repr

/-- `DocumentConverter._svg_to_raster_fallback`: try `wand` if importable
(its outcome is `wandOk`; an exception is caught by the outer `except` and
returns `False`), else write a 512×512 light-gray placeholder and return
`True`. The second component reports the placeholder written, if any. -/
def svg_to_raster_fallback (wandAvailable wandOk : Bool) (output_file : String) :
    Bool × Option PlaceholderWrite :=
  if wandAvailable then
    (wandOk, none)
  else if get_file_extension output_file == ".jpg" ||
      get_file_extension output_file == ".jpeg" then
    (true, some ⟨512, 512, (240, 240, 240), "JPEG"⟩)
  else
    (true, some ⟨512, 512, (240, 240, 240), "auto"⟩)

/-- `DocumentConverter._svg_to_raster`: try `cairosvg` if importable (its
outcome is `cairoOk`); on `ImportError` or any render failure fall back to
`_svg_to_raster_fallback`. -/
def svg_to_raster (cairoAvailable cairoOk wandAvailable wandOk : Bool)
    (output_file : String) : Bool × Option PlaceholderWrite :=
  if cairoAvailable then
    if cairoOk then (true, none)
    else svg_to_raster_fallback wandAvailable wandOk output_file
  else
    svg_to_raster_fallback wandAvailable wandOk output_file

/-! ## Derived pair lists used by the registry theorems -/

/-- All (source, target) pairs listed by `CONVERSION_MATRIX`. -/
def matrixPairs : List (String × String) :=
  CONVERSION_MATRIX.flatMap (fun p => p.2.map (fun t => (p.1, t)))

/-- All registered keys of `supported_conversions`. -/
def registryKeys : List (String × String) :=
  supported_conversions.map (fun p => p.1)

/-- The pairs listed in `CONVERSION_MATRIX` that have no registered
handler (all document/spreadsheet pairs). -/
def matrixOnlyPairs : List (String × String) :=
  [("docx", "rtf"), ("pdf", "html"), ("txt", "html"), ("txt", "rtf"),
   ("html", "docx"), ("rtf", "docx"), ("rtf", "pdf"), ("rtf", "txt"),
   ("md", "pdf"), ("md", "docx"), ("xlsx", "pdf"), ("csv", "pdf")]

/-- The registered pairs absent from `CONVERSION_MATRIX`: every video
format to each of flac, ogg, m4a, wma, added by the programmatic
video→audio expansion. -/
def registryOnlyPairs : List (String × String) :=
  video_formats.flatMap (fun v => ["flac", "ogg", "m4a", "wma"].map (fun a => (v, a)))

/-- Every format name appearing in `CONVERSION_MATRIX`, as source key or
as listed target. -/
def matrixFormatNames : List String :=
  CONVERSION_MATRIX.map (fun p => p.1) ++ CONVERSION_MATRIX.flatMap (fun p => p.2)

/-! ## Bridging lemmas -/

/-- A successful association-list lookup exhibits a member of the list. -/
theorem lookup_mem {α : Type} {β : Type} [BEq α] [LawfulBEq α]
    {l : List (α × β)} {k : α} {v : β} (h : l.lookup k = some v) : (k, v) ∈ l := by
  induction l with
  | nil => simp at h
  | cons p rest ih =>
    rw [show (p :: rest).lookup k = match k == p.1 with
          | true => some p.2
          | false => rest.lookup k from rfl] at h
    cases hbeq : k == p.1 with
    | true =>
      rw [hbeq] at h
      cases h
      have : k = p.1 := eq_of_beq hbeq
      subst this
      exact List.mem_cons_self _ _
    | false =>
      rw [hbeq] at h
      exact List.mem_cons_of_mem _ (ih h)

/-- A pair accepted by `can_convert` appears in `matrixPairs`. -/
theorem can_convert_mem_matrixPairs {s t : String}
    (h : can_convert s t = true) : (s, t) ∈ matrixPairs := by
  unfold can_convert at h
  cases hl : CONVERSION_MATRIX.lookup s with
  | none => rw [hl] at h; cases h
  | some ts =>
    rw [hl] at h
    have hmem : t ∈ ts := by
      have := List.elem_iff.mp h
      exact this
    exact List.mem_flatMap.mpr ⟨(s, ts), lookup_mem hl, List.mem_map.mpr ⟨t, hmem, rfl⟩⟩

/-- A pair with a registered handler appears in `registryKeys`. -/
theorem handlerFor_mem_registryKeys {s t : String} {h : Handler}
    (hreg : handlerFor s t = some h) : (s, t) ∈ registryKeys := by
  unfold handlerFor at hreg
  exact List.mem_map.mpr ⟨((s, t), h), lookup_mem hreg, rfl⟩

/-- The conversion loop counts every file exactly once. -/
theorem foldl_convertStep_sum (convertOk : String → Bool) (l : List String) :
    ∀ acc : Nat × Nat,
      (l.foldl (convertStep convertOk) acc).1 + (l.foldl (convertStep convertOk) acc).2 =
        acc.1 + acc.2 + l.length := by
  induction l with
  | nil => intro acc; simp
  | cons x xs ih =>
    intro acc
    rw [List.foldl_cons, ih (convertStep convertOk acc x)]
    unfold convertStep
    by_cases hx : convertOk x = true <;> simp [hx] <;> omega

/-- Specialisation to the initial accumulator. -/
theorem convertLoop_sum (convertOk : String → Bool) (l : List String) :
    (convertLoop l convertOk).1 + (convertLoop l convertOk).2 = l.length := by
  unfold convertLoop
  simpa using foldl_convertStep_sum convertOk l (0, 0)

set_option maxRecDepth 40000 in
/-- Finite facts about the registry and the matrix, established in a single
evaluation: (1) every matrix pair outside `matrixOnlyPairs` has a handler;
(2) every registered key outside `registryOnlyPairs` is accepted by
`can_convert`; (3) no matrix pair is a self-pair; (4) no registered key is
a self-pair; (5)–(7) concrete lookups used by witnesses. -/
theorem registryFacts :
    matrixPairs.all
        (fun p => matrixOnlyPairs.contains p || (handlerFor p.1 p.2).isSome) = true ∧
    registryKeys.all
        (fun p => registryOnlyPairs.contains p || can_convert p.1 p.2) = true ∧
    matrixPairs.all (fun p => !(p.1 == p.2)) = true ∧
    registryKeys.all (fun p => !(p.1 == p.2)) = true ∧
    handlerFor "docx" "rtf" = none ∧
    handlerFor "png" "jpg" = some Handler.imageConvert ∧
    can_convert "docx" "rtf" = true := by
  decide

set_option maxRecDepth 4000 in
/-- Every format name appearing in `CONVERSION_MATRIX` resolves in
`SUPPORTED_FORMATS` to a non-empty extension list. -/
theorem matrixNamesSupportedScan :
    matrixFormatNames.all
      (fun n => match SUPPORTED_FORMATS.lookup n with
        | some (_ :: _) => true
        | _ => false) = true := by
  decide

/-! ## Claim theorems -/

/-- Claim C6: no format converts to itself — `can_convert F F` is false for
every format name `F`, and no self-pair `(F, F)` is ever a key of
`supported_conversions`, the programmatic video/audio expansion included. -/
theorem no_self_conversion (F : String) :
    can_convert F F = false ∧ handlerFor F F = none := by
  constructor
  · cases hc : can_convert F F with
    | false => rfl
    | true =>
      exfalso
      have hmem := can_convert_mem_matrixPairs hc
      have hall := List.all_eq_true.mp registryFacts.2.2.1 _ hmem
      simp at hall
  · cases hh : handlerFor F F with
    | none => rfl
    | some h =>
      exfalso
      have hmem := handlerFor_mem_registryKeys hh
      have hall := List.all_eq_true.mp registryFacts.2.2.2.1 _ hmem
      simp at hall

/-- Claim C1 (corrected): outside the 12 matrix-only document/spreadsheet
pairs and the 36 programmatically registered video→audio pairs, the two
representations agree — `can_convert` accepts a pair iff the pair has a
registered handler. -/
theorem matrix_registry_agree_outside_exceptions (s t : String)
    (hA : (s, t) ∉ matrixOnlyPairs) (hB : (s, t) ∉ registryOnlyPairs) :
    can_convert s t = true ↔ (handlerFor s t).isSome = true := by
  constructor
  · intro hc
    have hmem := can_convert_mem_matrixPairs hc
    have hall := List.all_eq_true.mp registryFacts.1 _ hmem
    rw [Bool.or_eq_true] at hall
    rcases hall with hcont | hsome
    · exact absurd (List.elem_iff.mp hcont) hA
    · exact hsome
  · intro hs
    rcases Option.isSome_iff_exists.mp hs with ⟨h, hh⟩
    have hmem := handlerFor_mem_registryKeys hh
    have hall := List.all_eq_true.mp registryFacts.2.1 _ hmem
    rw [Bool.or_eq_true] at hall
    rcases hall with hcont | hcan
    · exact absurd (List.elem_iff.mp hcont) hB
    · exact hcan

/-- Witness for the corrected C1 at the concrete pair (png, jpg). -/
theorem matrix_registry_agree_witness :
    can_convert "png" "jpg" = true ↔ (handlerFor "png" "jpg").isSome = true :=
  matrix_registry_agree_outside_exceptions "png" "jpg" (by decide) (by decide)

/-- Counterexample to C1 as stated: (docx, rtf) is reported convertible by
`can_convert` yet has no registered handler, so the two representations do
not agree on it. -/
theorem matrix_registry_disagree_at_docx_rtf :
    can_convert "docx" "rtf" = true ∧ handlerFor "docx" "rtf" = none ∧
    ¬(can_convert "docx" "rtf" = true ↔ (handlerFor "docx" "rtf").isSome = true) := by
  refine ⟨registryFacts.2.2.2.2.2.2, registryFacts.2.2.2.2.1, ?_⟩
  intro hiff
  have hs := hiff.mp registryFacts.2.2.2.2.2.2
  rw [registryFacts.2.2.2.2.1] at hs
  cases hs

/-- Claim C3: a (source, target) pair absent from the handler registry
makes `convert` return false immediately, with zero handler invocations. -/
theorem convert_unregistered_returns_false_without_handler
    (handlerRun : Handler → String → String → Except String Bool)
    (input_file output_file s t : String)
    (h : supported_conversions.lookup (s, t) = none) :
    convert handlerRun input_file output_file s t = (false, 0) := by
  unfold convert
  rw [h]

/-- Witness for C3 at the unregistered pair (docx, rtf). -/
theorem convert_unregistered_witness :
    convert (fun _ _ _ => .ok true) "in.docx" "out.rtf" "docx" "rtf" = (false, 0) :=
  convert_unregistered_returns_false_without_handler
    (fun _ _ _ => .ok true) "in.docx" "out.rtf" "docx" "rtf"
    registryFacts.2.2.2.2.1

/-- Claim C4: `convert` never propagates a handler exception — an error
raised inside the handler is caught and translated to a false result,
after exactly the one handler invocation. -/
theorem convert_translates_handler_error_to_false
    (handlerRun : Handler → String → String → Except String Bool)
    (input_file output_file s t : String) (h : Handler) (e : String)
    (hreg : supported_conversions.lookup (s, t) = some h)
    (herr : handlerRun h input_file output_file = .error e) :
    convert handlerRun input_file output_file s t = (false, 1) := by
  unfold convert
  rw [hreg]
  simp only [herr]

/-- Witness for C4: an erroring image handler on the pair (png, jpg). -/
theorem convert_translates_handler_error_witness :
    convert (fun _ _ _ => .error "boom") "a.png" "b.jpg" "png" "jpg" = (false, 1) :=
  convert_translates_handler_error_to_false
    (fun _ _ _ => .error "boom") "a.png" "b.jpg" "png" "jpg"
    Handler.imageConvert "boom" registryFacts.2.2.2.2.2.1 rfl

/-- Evaluation of `batch_convert` in the over-cap, prompt-confirmed case. -/
theorem batch_convert_eq_of_over_cap
    (files : List String) (target resp : String) (convertOk : String → Bool)
    (hlen : MAX_BATCH_SIZE < (batch_supported_files files target).length)
    (hresp : lowerAscii resp = "y") :
    batch_convert files target resp convertOk =
      ⟨(batch_supported_files files target).take MAX_BATCH_SIZE,
       (convertLoop ((batch_supported_files files target).take MAX_BATCH_SIZE) convertOk).1,
       (convertLoop ((batch_supported_files files target).take MAX_BATCH_SIZE) convertOk).2,
       true, .completed,
       (convertLoop ((batch_supported_files files target).take MAX_BATCH_SIZE) convertOk).2
         == 0⟩ := by
  have hemp : ¬(batch_supported_files files target = []) := by
    intro hnil
    rw [hnil] at hlen
    simp [MAX_BATCH_SIZE] at hlen
  unfold batch_convert
  rw [if_neg hemp, if_pos hlen, if_neg (fun hne => hne hresp)]

/-- Claim C2 (corrected): when more than `MAX_BATCH_SIZE` (= 50)
convertible files are discovered, the truncation warning is logged and the
user is prompted; if the prompt is answered "y", the batch is truncated to
the first 50 files in traversal order, exactly those are processed, and the
success and failure counts sum to 50. -/
theorem batch_truncates_when_prompt_confirmed
    (files : List String) (target resp : String) (convertOk : String → Bool)
    (hlen : MAX_BATCH_SIZE < (batch_supported_files files target).length)
    (hresp : lowerAscii resp = "y") :
    (batch_convert files target resp convertOk).truncWarned = true ∧
    (batch_convert files target resp convertOk).attempted =
      (batch_supported_files files target).take MAX_BATCH_SIZE ∧
    (batch_convert files target resp convertOk).attempted.length = MAX_BATCH_SIZE ∧
    (batch_convert files target resp convertOk).outcome = .completed ∧
    (batch_convert files target resp convertOk).successful +
      (batch_convert files target resp convertOk).failed = MAX_BATCH_SIZE := by
  rw [batch_convert_eq_of_over_cap files target resp convertOk hlen hresp]
  refine ⟨rfl, rfl, ?_, rfl, ?_⟩
  · rw [List.length_take]
    exact Nat.min_eq_left (Nat.le_of_lt hlen)
  · rw [convertLoop_sum, List.length_take]
    exact Nat.min_eq_left (Nat.le_of_lt hlen)

/-- Witness for the corrected C2: 51 convertible files, prompt confirmed. -/
theorem batch_truncates_witness :
    (batch_convert (List.replicate 51 "a.png") "jpg" "y" (fun _ => true)).truncWarned
        = true ∧
    (batch_convert (List.replicate 51 "a.png") "jpg" "y" (fun _ => true)).attempted.length
        = MAX_BATCH_SIZE :=
  have h := batch_truncates_when_prompt_confirmed
    (List.replicate 51 "a.png") "jpg" "y" (fun _ => true) (by decide) (by decide)
  ⟨h.1, h.2.2.1⟩

/-- Counterexample to C2 as stated: with 51 convertible files and the
prompt declined, `batch_convert` aborts, attempting no file at all, so
processing does not continue past the truncation warning. -/
theorem batch_aborts_when_prompt_declined :
    (batch_convert (List.replicate 51 "a.png") "jpg" "n" (fun _ => true)).outcome =
      BatchOutcome.aborted ∧
    (batch_convert (List.replicate 51 "a.png") "jpg" "n" (fun _ => true)).attempted = [] ∧
    (batch_convert (List.replicate 51 "a.png") "jpg" "n" (fun _ => true)).retVal = false := by
  decide

/-- Claim C5 (corrected): when at most `MAX_BATCH_SIZE` convertible files
are discovered, the batch attempts exactly the discovered files whose
format is recognized and convertible to the target, in traversal order —
independently of which conversions fail — and the success and failure
counts sum to the number attempted. -/
theorem batch_attempts_exactly_supported_within_cap
    (files : List String) (target resp : String) (convertOk : String → Bool)
    (hlen : (batch_supported_files files target).length ≤ MAX_BATCH_SIZE) :
    (batch_convert files target resp convertOk).attempted =
      batch_supported_files files target ∧
    (batch_convert files target resp convertOk).successful +
      (batch_convert files target resp convertOk).failed =
      (batch_convert files target resp convertOk).attempted.length := by
  by_cases hemp : batch_supported_files files target = []
  · unfold batch_convert
    rw [if_pos hemp]
    exact ⟨hemp.symm, rfl⟩
  · unfold batch_convert
    rw [if_neg hemp, if_neg (Nat.not_lt.mpr hlen)]
    exact ⟨rfl, convertLoop_sum convertOk _⟩

/-- Witness for the corrected C5: one discovered convertible file, whose
conversion fails, is still the exactly-attempted list. -/
theorem batch_attempts_witness :
    (batch_convert ["x.png"] "jpg" "q" (fun _ => false)).attempted =
      batch_supported_files ["x.png"] "jpg" ∧
    (batch_convert ["x.png"] "jpg" "q" (fun _ => false)).successful +
      (batch_convert ["x.png"] "jpg" "q" (fun _ => false)).failed =
      (batch_convert ["x.png"] "jpg" "q" (fun _ => false)).attempted.length :=
  batch_attempts_exactly_supported_within_cap ["x.png"] "jpg" "q" (fun _ => false)
    (by decide)

/-- Counterexample to C5 as stated: with 51 discovered convertible files
and the prompt confirmed, only 50 of the 51 are attempted. -/
theorem batch_over_cap_attempts_fewer :
    (batch_supported_files (List.replicate 51 "b.png") "jpg").length = 51 ∧
    (batch_convert (List.replicate 51 "b.png") "jpg" "y" (fun _ => false)).attempted.length
      = 50 := by
  decide

/-- Claim C7 (code bug): an `LA`-mode image with a fully transparent black
pixel, preprocessed by the JPEG branch, loses its alpha channel without
white compositing — the output pixel is black, not white, because the
paste mask is only taken when the mode is `RGBA`. -/
theorem la_transparent_to_jpeg_not_white :
    alphaOf ⟨PMode.LA, 1, 1, fun _ _ => (0, 0, 0, 0)⟩ 0 0 = 0 ∧
    (jpegBranch ⟨PMode.LA, 1, 1, fun _ _ => (0, 0, 0, 0)⟩).mode = PMode.RGB ∧
    (jpegBranch ⟨PMode.LA, 1, 1, fun _ _ => (0, 0, 0, 0)⟩).px 0 0 = (0, 0, 0, 255) ∧
    ((0, 0, 0, 255) : Pixel) ≠ (255, 255, 255, 255) ∧
    (jpegBranch ⟨PMode.RGBA, 1, 1, fun _ _ => (0, 0, 0, 0)⟩).px 0 0 =
      (255, 255, 255, 255) := by
  exact ⟨rfl, rfl, rfl, by decide, rfl⟩

/-- Claim C8 (corrected): the ICO branch first downscales any source larger
than 256×256 to exactly 256×256, and the sizes handed to the encoder are
exactly the candidates fitting the possibly-downscaled image: a source
within 256×256 gets exactly the candidates fitting the source, with a
single-size fallback encode at the source's native size when none fit,
while a larger source always gets all six candidates. -/
theorem ico_sizes_after_downscale (img : PImage) :
    (img.width ≤ 256 → img.height ≤ 256 →
      icoBranch img =
        (if (icoCandidateSizes.filter
              (fun s => s.1 ≤ img.width && s.2 ≤ img.height)).isEmpty then
          IcoSave.single img.width img.height
        else
          IcoSave.multi (icoCandidateSizes.filter
            (fun s => s.1 ≤ img.width && s.2 ≤ img.height)))) ∧
    (256 < img.width ∨ 256 < img.height →
      icoBranch img = IcoSave.multi icoCandidateSizes) := by
  have hrgbaW : ∀ i : PImage, (icoRGBA i).width = i.width := by
    intro i
    unfold icoRGBA
    split <;> rfl
  have hrgbaH : ∀ i : PImage, (icoRGBA i).height = i.height := by
    intro i
    unfold icoRGBA
    split <;> rfl
  constructor
  · intro hw hh
    have hcond : ¬(256 < img.width ∨ 256 < img.height) := by omega
    have hres : icoResized img = img := by
      unfold icoResized
      rw [if_neg hcond]
    unfold icoBranch
    rw [hres, hrgbaW, hrgbaH]
  · intro hcond
    have hresW : (icoResized img).width = 256 := by
      unfold icoResized
      rw [if_pos hcond]
      rfl
    have hresH : (icoResized img).height = 256 := by
      unfold icoResized
      rw [if_pos hcond]
      rfl
    unfold icoBranch
    rw [hrgbaW, hrgbaH, hresW, hresH]
    rfl

/-- Witness for the corrected C8: a 10×10 source fits no candidate size and
falls back to a single-size encode at its native size. -/
theorem ico_small_source_witness :
    icoBranch ⟨PMode.RGB, 10, 10, fun _ _ => (0, 0, 0, 255)⟩ = IcoSave.single 10 10 := by
  have h := (ico_sizes_after_downscale ⟨PMode.RGB, 10, 10, fun _ _ => (0, 0, 0, 255)⟩).1
    (by decide) (by decide)
  exact h.trans (by rfl)

/-- Counterexample to C8 as stated: a 300×100 source is first downscaled
to 256×256, so the encoded sizes are all six candidates rather than the
four that fit within the source's own 300×100 dimensions. -/
theorem ico_oversized_source_includes_large_sizes :
    icoBranch ⟨PMode.RGB, 300, 100, fun _ _ => (0, 0, 0, 255)⟩ =
      IcoSave.multi icoCandidateSizes ∧
    icoCandidateSizes.filter (fun s => s.1 ≤ 300 && s.2 ≤ 100) =
      [(16, 16), (32, 32), (48, 48), (64, 64)] ∧
    IcoSave.multi icoCandidateSizes ≠
      IcoSave.multi [(16, 16), (32, 32), (48, 48), (64, 64)] := by
  exact ⟨rfl, rfl, by decide⟩

/-- Claim C9: with neither `cairosvg` nor `wand` importable, the SVG
raster fallback writes a 512×512 uniform light-gray (240, 240, 240)
placeholder to the output path and returns success. -/
theorem svg_placeholder_when_no_renderer (cairoOk wandOk : Bool) (output_file : String) :
    (svg_to_raster false cairoOk false wandOk output_file).1 = true ∧
    ∃ fmt, (svg_to_raster false cairoOk false wandOk output_file).2 =
      some ⟨512, 512, (240, 240, 240), fmt⟩ := by
  unfold svg_to_raster svg_to_raster_fallback
  by_cases hext : (get_file_extension output_file == ".jpg" ||
      get_file_extension output_file == ".jpeg") = true
  · rw [if_pos hext]
    exact ⟨rfl, "JPEG", rfl⟩
  · rw [if_neg hext]
    exact ⟨rfl, "auto", rfl⟩

/-- Claim C10: every format name used in `CONVERSION_MATRIX` — source key
or listed target — is a key of `SUPPORTED_FORMATS` with a non-empty
extension list, so for every convertible pair `generate_output_filename`
totally succeeds, producing the output directory joined with the input's
base name plus the target's canonical (first) extension. -/
theorem matrix_formats_supported_and_naming_total :
    (∀ n ∈ matrixFormatNames, ∃ e es, SUPPORTED_FORMATS.lookup n = some (e :: es)) ∧
    (∀ s t input_file output_dir, can_convert s t = true →
      ∃ e es, SUPPORTED_FORMATS.lookup t = some (e :: es) ∧
        generate_output_filename input_file t output_dir =
          some (osJoin output_dir (fileStem input_file ++ e))) := by
  have hnames : ∀ n ∈ matrixFormatNames,
      ∃ e es, SUPPORTED_FORMATS.lookup n = some (e :: es) := by
    intro n hn
    have hscan := List.all_eq_true.mp matrixNamesSupportedScan n hn
    cases hl : SUPPORTED_FORMATS.lookup n with
    | none =>
      rw [hl] at hscan
      exact absurd hscan (by decide)
    | some exts =>
      cases exts with
      | nil =>
        rw [hl] at hscan
        exact absurd hscan (by decide)
      | cons e es => exact ⟨e, es, rfl⟩
  refine ⟨hnames, ?_⟩
  intro s t input_file output_dir hc
  have hmem : t ∈ matrixFormatNames := by
    rcases List.mem_flatMap.mp (can_convert_mem_matrixPairs hc) with ⟨row, hrow, hin⟩
    rcases List.mem_map.mp hin with ⟨t0, ht0, heq⟩
    apply List.mem_append.mpr
    right
    refine List.mem_flatMap.mpr ⟨row, hrow, ?_⟩
    have : t0 = t := congrArg Prod.snd heq
    rw [this] at ht0
    exact ht0
  rcases hnames t hmem with ⟨e, es, hl⟩
  refine ⟨e, es, hl, ?_⟩
  unfold generate_output_filename
  rw [hl]

/-- Witness for C10: the pair (png, jpg) with a concrete input path and
output directory. -/
theorem matrix_formats_supported_witness :
    (∃ e es, SUPPORTED_FORMATS.lookup "png" = some (e :: es)) ∧
    (∃ e es, SUPPORTED_FORMATS.lookup "jpg" = some (e :: es) ∧
      generate_output_filename "dir/photo.png" "jpg" "out" =
        some (osJoin "out" (fileStem "dir/photo.png" ++ e))) :=
  ⟨matrix_formats_supported_and_naming_total.1 "png" (by decide),
   matrix_formats_supported_and_naming_total.2 "png" "jpg" "dir/photo.png" "out"
     (by decide)⟩

end ConverterX
